import Mathlib

/-!
# Verification of the pinnacle compositor's window-management core

A shallow embedding of the window-management core of the `pinnacle`
Wayland compositor, translated from the Rust sources
(`src/handlers/xdg_shell.rs`, `src/handlers.rs`, `src/api/window.rs`),
together with proofs about the configure/acknowledge state machine, the
focus coordinator, the remote window service, the batch-mapping blocker
logic, resize-edge inference and popup positioning.

Machine integers in the source (`i32`, `u32` serials) are modelled as
`Int`/`Nat`: none of the modelled operations perform overflowing
arithmetic.  The floating-point pointer coordinates of `resize_grab` are
modelled as rationals: the source computes `x + w / 2.0`, `x + w`, and
compares with `<=`, all of which are exact over the inputs under
consideration.
-/

namespace Pinnacle

/-! ## Basic geometry (smithay `Point`, `Size`, `Rectangle`) -/

/-- A logical-coordinate point (`Point<i32, Logical>`). -/
structure Pt where
  x : Int
  y : Int
deriving DecidableEq, Repr

/-- A logical-coordinate size (`Size<i32, Logical>`). -/
structure Sz where
  w : Int
  h : Int
deriving DecidableEq, Repr

/-- A logical-coordinate rectangle (`Rectangle<i32, Logical>`), stored as
location plus size like smithay's `Rectangle { loc, size }`. -/
structure Rect where
  loc : Pt
  size : Sz
deriving DecidableEq, Repr

/-- `Rectangle::from_loc_and_size`. -/
def Rect.fromLocAndSize (loc : Pt) (size : Sz) : Rect :=
  { loc := loc, size := size }

/-! ## Resize negotiation state machine

From `src/window/window_state.rs` as used by
`src/handlers/xdg_shell.rs::ack_configure`: the per-window
`WindowResizeState` is `Idle`, `Requested(serial, new_loc)` or
`Acknowledged(new_loc)`. -/

/-- The per-window resize negotiation state (`WindowResizeState`). -/
inductive WindowResizeState where
  | idle
  | requested (serial : Nat) (newLoc : Pt)
  | acknowledged (newLoc : Pt)
deriving DecidableEq, Repr

/-- A configure event as seen by `ack_configure` (smithay `Configure`):
either a toplevel configure carrying its serial, or a popup configure. -/
inductive Configure where
  | toplevel (serial : Nat)
  | popup
deriving DecidableEq, Repr

/-- `ack_configure` from `src/handlers/xdg_shell.rs` (lines 276-302),
restricted to the state it reads and writes: the window's resize state,
plus whether a frame callback is sent (which happens exactly when the
transition to `Acknowledged` fires and a focused output exists).
The `Configure::Popup(_) => todo!()` arm of the source panics, which we
model as `none`; every other path returns the updated state. -/
def ackConfigure (focusedOutput : Option Nat) (rs : WindowResizeState)
    (c : Configure) : Option (WindowResizeState × Bool) :=
  match rs with
  | .requested serial newLoc =>
    match c with
    | .toplevel cserial =>
      if serial ≤ cserial then
        some (.acknowledged newLoc, focusedOutput.isSome)
      else
        some (.requested serial newLoc, false)
    | .popup => none
  | s => some (s, false)

/-! ## Resize-edge inference

From `src/api/window.rs::resize_grab` (lines 539-575).  The source works
on `f64`; we use `ℚ`, over which `x + w / 2`, `x + w` and `≤` agree with
the `f64` computation for all inputs considered here (small integers). -/

/-- `xdg_toplevel::ResizeEdge`, restricted to the values `resize_grab`
can produce. -/
inductive ResizeEdge where
  | topLeft
  | topRight
  | bottomLeft
  | bottomRight
  | none
deriving DecidableEq, Repr

/-- The edge computation of `resize_grab`: the window's bounding
rectangle is split at its midlines, and the pointer position is matched
against the four quadrants with inclusive ranges, in the source's match
order (`TopLeft`, `TopRight`, `BottomLeft`, `BottomRight`), falling
through to `None`. -/
def resizeGrabEdges (windowX windowY windowWidth windowHeight px py : ℚ) :
    ResizeEdge :=
  let halfWidth := windowX + windowWidth / 2
  let halfHeight := windowY + windowHeight / 2
  let fullWidth := windowX + windowWidth
  let fullHeight := windowY + windowHeight
  if windowX ≤ px ∧ px ≤ halfWidth ∧ windowY ≤ py ∧ py ≤ halfHeight then
    .topLeft
  else if halfWidth ≤ px ∧ px ≤ fullWidth ∧ windowY ≤ py ∧ py ≤ halfHeight then
    .topRight
  else if windowX ≤ px ∧ px ≤ halfWidth ∧ halfHeight ≤ py ∧ py ≤ fullHeight then
    .bottomLeft
  else if halfWidth ≤ px ∧ px ≤ fullWidth ∧ halfHeight ≤ py ∧ py ≤ fullHeight then
    .bottomRight
  else
    .none

/-! ## The compositor object graph

Translated from `src/api/window.rs` together with the state types it
manipulates.  Windows carry the per-window state
(`window_state::WindowElementState`) the window service reads and
writes; the `Space` is modelled by its observable components: element
locations, output geometries and the stacking order.  In this snapshot
every mapped window is both in `pinnacle.windows` and among the space's
elements, so a single `windows` list models both. -/

/-- `window_state::FloatingOrTiled`. -/
inductive FloatingOrTiled where
  | floating (rect : Rect)
  | tiled (rect : Option Rect)
deriving DecidableEq, Repr

/-- `window_state::FullscreenOrMaximized`. -/
inductive FullscreenOrMaximized where
  | neither
  | fullscreen
  | maximized
deriving DecidableEq, Repr

/-- `FullscreenOrMaximized::is_fullscreen`. -/
def FullscreenOrMaximized.isFullscreen : FullscreenOrMaximized → Bool
  | .fullscreen => true
  | _ => false

/-- The protobuf `SetOrToggle` enum; out-of-range wire values decode to
`unspecified`. -/
inductive SetOrToggle where
  | unspecified
  | set
  | unset
  | toggle
deriving DecidableEq, Repr

/-- The two window variants (`WindowSurface::Wayland` / `X11`). -/
inductive WindowSurface where
  | wayland
  | x11
deriving DecidableEq, Repr

/-- A managed window with the per-window state used by the window
service: identity, surface kind, override-redirect flag (always false
for Wayland windows), whether it has an xdg toplevel, the activated
flag, its `geometry().size`, its tag memberships and its geometry
mode. -/
structure Window where
  id : Nat
  surface : WindowSurface
  overrideRedirect : Bool
  hasToplevel : Bool
  activated : Bool
  size : Sz
  tags : List Nat
  floatingOrTiled : FloatingOrTiled
  fullscreenOrMaximized : FullscreenOrMaximized
deriving DecidableEq, Repr

/-- Modelled from the spec: `FocusStack` (focus module, not under
`src/`): "ordered-by-recency sequence ...; `set_focus` moves/pushes an
entry to the front, `unset_focus` clears without removing history". -/
structure FocusStack where
  stack : List Nat
  focused : Bool
deriving DecidableEq, Repr

/-- `FocusStack::set_focus`: move/push the entry to the front and mark
focus as set. -/
def FocusStack.setFocus (fs : FocusStack) (x : Nat) : FocusStack :=
  { stack := x :: fs.stack.filter (· != x), focused := true }

/-- `FocusStack::unset_focus`: clear the focused flag, keeping the
history. -/
def FocusStack.unsetFocus (fs : FocusStack) : FocusStack :=
  { fs with focused := false }

/-- The current focus of a `FocusStack`: the front entry, when focus is
set. -/
def FocusStack.currentFocus (fs : FocusStack) : Option Nat :=
  if fs.focused then fs.stack.head? else none

/-- A tag, owned by (at most) one output. -/
structure Tag where
  id : Nat
  outputId : Option Nat
deriving DecidableEq, Repr

/-- An output with its per-output window focus stack. -/
structure Output where
  id : Nat
  focusStack : FocusStack
deriving DecidableEq, Repr

/-- The `Pinnacle` object graph as read and written by the window
service: the window list (= the space's elements), tags, outputs, the
global output focus stack, and the space's observable state (element
locations, output geometries, stacking order front-first). -/
structure PinnacleState where
  windows : List Window
  tags : List Tag
  outputs : List Output
  outputFocusStack : FocusStack
  spaceLoc : List (Nat × Pt)
  outputGeometry : List (Nat × Rect)
  zOrder : List Nat
deriving DecidableEq, Repr

/-- `WindowId::window`: resolve a window id against the window list. -/
def PinnacleState.findWindow (pin : PinnacleState) (id : Nat) : Option Window :=
  pin.windows.find? (fun w => w.id == id)

/-- `TagId::tag`: resolve a tag id. -/
def PinnacleState.findTag (pin : PinnacleState) (id : Nat) : Option Tag :=
  pin.tags.find? (fun t => t.id == id)

/-- Resolve an output id. -/
def PinnacleState.findOutput (pin : PinnacleState) (id : Nat) : Option Output :=
  pin.outputs.find? (fun o => o.id == id)

/-- `window.with_state_mut(...)`: update the state of the window with
the given id. -/
def PinnacleState.updateWindow (pin : PinnacleState) (id : Nat)
    (f : Window → Window) : PinnacleState :=
  { pin with windows := pin.windows.map fun w => if w.id = id then f w else w }

/-- `output.with_state_mut(...)`: update the state of the output with
the given id. -/
def PinnacleState.updateOutput (pin : PinnacleState) (id : Nat)
    (f : Output → Output) : PinnacleState :=
  { pin with outputs := pin.outputs.map fun o => if o.id = id then f o else o }

/-- Modelled from the spec: `window.output(pinnacle)` (window module,
not under `src/`): "windows belong to tags, tags belong to outputs" —
the window's owning output, resolved through the window's first tag
naming an output that still exists. -/
def Window.output (pin : PinnacleState) (w : Window) : Option Nat :=
  w.tags.findSome? fun tid =>
    (pin.findTag tid).bind fun t =>
      t.outputId.bind fun oid => (pin.findOutput oid).map (fun o => o.id)

/-- Modelled from the spec: `tag.output(pinnacle)` (tag module, not
under `src/`): a tag is "owned by exactly one Output" — resolve it if it
still exists. -/
def Tag.output (pin : PinnacleState) (t : Tag) : Option Nat :=
  t.outputId.bind fun oid => (pin.findOutput oid).map (fun o => o.id)

/-- Modelled from the spec: `pinnacle.focused_window(&output)` (not
under `src/`): the window at the front of the output's focus stack, when
focus is set. -/
def PinnacleState.focusedWindow (pin : PinnacleState) (opId : Nat) : Option Nat :=
  (pin.findOutput opId).bind fun o => o.focusStack.currentFocus

/-- Modelled from the spec: `pinnacle.raise_window` (not under `src/`):
"`raise` moves the window to the top of the global stacking order
without changing focus". -/
def PinnacleState.raiseWindow (pin : PinnacleState) (windowId : Nat) : PinnacleState :=
  { pin with zOrder := windowId :: pin.zOrder.filter (· != windowId) }

/-- Strict rectangle overlap, as used by smithay's
`Space::outputs_for_element`. -/
def Rect.overlaps (a b : Rect) : Bool :=
  a.loc.x < b.loc.x + b.size.w && b.loc.x < a.loc.x + a.size.w &&
    a.loc.y < b.loc.y + b.size.h && b.loc.y < a.loc.y + a.size.h

/-- smithay `Space::outputs_for_element`: the outputs whose geometry
overlaps the window's rectangle in the space (location from the space,
size from the window); empty when the window is not mapped. -/
def PinnacleState.outputsForElement (pin : PinnacleState) (w : Window) : List Nat :=
  match pin.spaceLoc.lookup w.id with
  | none => []
  | some loc =>
    (pin.outputGeometry.filter fun p => Rect.overlaps p.2 ⟨loc, w.size⟩).map (fun p => p.1)

/-! ## The event-loop state seen by the window service

`State` wraps the object graph with the seat's keyboard, the serial
counter, and logs of the outward effects the claims talk about
(layout requests, render schedules, configures, close requests).  Each
log lists the most recent event first. -/

/-- The compositor `State` as seen by a window-service closure. -/
structure State where
  pinnacle : PinnacleState
  hasKeyboard : Bool
  keyboardFocus : Option Nat
  keyboardSerial : Option Nat
  serialCounter : Nat
  layoutRequests : List Nat
  renderSchedules : List Nat
  configuresSent : List Nat
  closeRequests : List Nat
deriving DecidableEq, Repr

/-- `pinnacle.request_layout(&output)`, recorded in the log. -/
def State.requestLayout (st : State) (opId : Nat) : State :=
  { st with layoutRequests := opId :: st.layoutRequests }

/-- `state.schedule_render(&output)`, recorded in the log. -/
def State.scheduleRender (st : State) (opId : Nat) : State :=
  { st with renderSchedules := opId :: st.renderSchedules }

/-- `if let Some(keyboard) = seat.get_keyboard() { keyboard.set_focus(
state, target, SERIAL_COUNTER.next_serial()) }`: when a keyboard exists,
set its focus using the next serial from the monotone counter. -/
def State.keyboardSetFocus (st : State) (target : Option Nat) : State :=
  if st.hasKeyboard then
    { st with
        keyboardFocus := target
        keyboardSerial := some st.serialCounter
        serialCounter := st.serialCounter + 1 }
  else st

/-! ## Window-service operations (`src/api/window.rs`)

Each RPC first validates the request's required fields (returning a
tonic `invalid_argument` error, modelled as `Except.error msg`, before
any closure is sent to the event loop), then runs its state closure via
`run_unary_no_response`, which always produces an ok response. -/

/-- The body of `WindowService::close` (lines 52-70): look up the
window; a Wayland toplevel is sent a close request, an X11 surface is
closed unless it is override-redirect. -/
def closeImpl (st : State) (windowId : Nat) : State :=
  match st.pinnacle.findWindow windowId with
  | none => st
  | some window =>
    match window.surface with
    | .wayland => { st with closeRequests := windowId :: st.closeRequests }
    | .x11 =>
      if !window.overrideRedirect then
        { st with closeRequests := windowId :: st.closeRequests }
      else st

/-- The full `close` RPC (lines 43-71). -/
def closeRpc (windowId? : Option Nat) (st : State) : Except String State :=
  match windowId? with
  | none => .error "no window specified"
  | some wid => .ok (closeImpl st wid)

/-- The body of `WindowService::raise` (lines 462-471): look up the
window (warning and returning on failure), then raise it. -/
def raiseImpl (st : State) (windowId : Nat) : State :=
  match st.pinnacle.findWindow windowId with
  | none => st
  | some window => { st with pinnacle := st.pinnacle.raiseWindow window.id }

/-- The full `raise` RPC (lines 453-472). -/
def raiseRpc (windowId? : Option Nat) (st : State) : Except String State :=
  match windowId? with
  | none => .error "no window specified"
  | some wid => .ok (raiseImpl st wid)

/-- The optional-field geometry of a `SetGeometryRequest`. -/
structure GeometryMsg where
  x : Option Int
  y : Option Int
  width : Option Int
  height : Option Int
deriving DecidableEq, Repr

/-- The body of `WindowService::set_geometry` (lines 93-125): merge the
provided fields into the window's current space location
(`element_location`, defaulting to the origin for unmapped windows) and
`geometry().size`, store the merged rectangle under the current
floating-or-tiled mode, then request layout and render on every output
the window overlaps. -/
def setGeometryImpl (st : State) (windowId : Nat) (g : GeometryMsg) : State :=
  match st.pinnacle.findWindow windowId with
  | none => st
  | some window =>
    let windowLoc := (st.pinnacle.spaceLoc.lookup windowId).getD ⟨0, 0⟩
    let windowLoc : Pt := { x := g.x.getD windowLoc.x, y := g.y.getD windowLoc.y }
    let windowSize : Sz :=
      { w := g.width.getD window.size.w, h := g.height.getD window.size.h }
    let rect := Rect.fromLocAndSize windowLoc windowSize
    let pin := st.pinnacle.updateWindow windowId fun w =>
      { w with floatingOrTiled :=
          match w.floatingOrTiled with
          | .floating _ => .floating rect
          | .tiled _ => .tiled (some rect) }
    let st' := { st with pinnacle := pin }
    (pin.outputsForElement window).foldl
      (fun s op => (s.requestLayout op).scheduleRender op) st'

/-- The full `set_geometry` RPC (lines 73-127); a missing geometry
message defaults to all fields absent (`unwrap_or_default`). -/
def setGeometryRpc (windowId? : Option Nat) (geometry? : Option GeometryMsg)
    (st : State) : Except String State :=
  match windowId? with
  | none => .error "no window specified"
  | some wid => .ok (setGeometryImpl st wid (geometry?.getD ⟨none, none, none, none⟩))

/-- Modelled from the spec: `window.toggle_fullscreen` (window module,
not under `src/`): "`toggle_floating/fullscreen/maximized()` flips the
relevant enum". -/
def Window.toggleFullscreen (w : Window) : Window :=
  { w with fullscreenOrMaximized :=
      match w.fullscreenOrMaximized with
      | .fullscreen => .neither
      | _ => .fullscreen }

/-- The body of `WindowService::set_fullscreen` (lines 147-174). -/
def setFullscreenImpl (st : State) (windowId : Nat) (mode : SetOrToggle) : State :=
  match st.pinnacle.findWindow windowId with
  | none => st
  | some window =>
    let pin :=
      match mode with
      | .set =>
        if !window.fullscreenOrMaximized.isFullscreen then
          st.pinnacle.updateWindow windowId Window.toggleFullscreen
        else st.pinnacle
      | .unset =>
        if window.fullscreenOrMaximized.isFullscreen then
          st.pinnacle.updateWindow windowId Window.toggleFullscreen
        else st.pinnacle
      | .toggle => st.pinnacle.updateWindow windowId Window.toggleFullscreen
      | .unspecified => st.pinnacle
    let st' := { st with pinnacle := pin }
    match Window.output pin window with
    | none => st'
    | some op => (st'.requestLayout op).scheduleRender op

/-- The full `set_fullscreen` RPC (lines 129-176): reject a missing
`window_id` or an unspecified/out-of-range `set_or_toggle` before any
state closure runs. -/
def setFullscreenRpc (windowId? : Option Nat) (mode : SetOrToggle)
    (st : State) : Except String State :=
  match windowId? with
  | none => .error "no window specified"
  | some wid =>
    if mode = .unspecified then .error "unspecified set or toggle"
    else .ok (setFullscreenImpl st wid mode)

/-- The body of `WindowService::set_tag` (lines 420-449): add/remove the
tag from the window's tag list, then request layout and render on the
tag's output. -/
def setTagImpl (st : State) (windowId tagId : Nat) (mode : SetOrToggle) : State :=
  match st.pinnacle.findWindow windowId with
  | none => st
  | some _ =>
    match st.pinnacle.findTag tagId with
    | none => st
    | some tag =>
      let pin := st.pinnacle.updateWindow windowId fun w =>
        { w with tags :=
            match mode with
            | .set => w.tags.filter (· != tag.id) ++ [tag.id]
            | .unset => w.tags.filter (· != tag.id)
            | .toggle =>
              if !w.tags.contains tag.id then w.tags ++ [tag.id]
              else w.tags.filter (· != tag.id)
            | .unspecified => w.tags }
      let st' := { st with pinnacle := pin }
      match Tag.output pin tag with
      | none => st'
      | some op => (st'.requestLayout op).scheduleRender op

/-- The full `set_tag` RPC (lines 399-451): reject a missing `window_id`
or `tag_id` or an unspecified `set_or_toggle` before any state closure
runs. -/
def setTagRpc (windowId? tagId? : Option Nat) (mode : SetOrToggle)
    (st : State) : Except String State :=
  match windowId? with
  | none => .error "no window specified"
  | some wid =>
    match tagId? with
    | none => .error "no tag specified"
    | some tid =>
      if mode = .unspecified then .error "unspecified set or toggle"
      else .ok (setTagImpl st wid tid mode)

/-- The body of `WindowService::move_to_tag` (lines 383-395): replace
the window's entire tag list with the single given tag, then request
layout and render on the tag's output. -/
def moveToTagImpl (st : State) (windowId tagId : Nat) : State :=
  match st.pinnacle.findWindow windowId with
  | none => st
  | some _ =>
    match st.pinnacle.findTag tagId with
    | none => st
    | some tag =>
      let pin := st.pinnacle.updateWindow windowId fun w => { w with tags := [tag.id] }
      let st' := { st with pinnacle := pin }
      match Tag.output pin tag with
      | none => st'
      | some op => (st'.requestLayout op).scheduleRender op

/-- The full `move_to_tag` RPC (lines 365-397). -/
def moveToTagRpc (windowId? tagId? : Option Nat) (st : State) : Except String State :=
  match windowId? with
  | none => .error "no window specified"
  | some wid =>
    match tagId? with
    | none => .error "no tag specified"
    | some tid => .ok (moveToTagImpl st wid tid)

/-- The shared activate path of `set_focused` (the `Set` arm, lines
312-323, repeated verbatim in the activating half of `Toggle`): set the
window's activated flag, push it to the front of its output's focus
stack, push the output to the front of the global output focus stack,
and set keyboard focus to the window with a fresh serial. -/
def setFocusedActivate (st : State) (windowId opId : Nat) : State :=
  let pin := st.pinnacle.updateWindow windowId fun w => { w with activated := true }
  let pin := pin.updateOutput opId fun o =>
    { o with focusStack := o.focusStack.setFocus windowId }
  let pin := { pin with outputFocusStack := pin.outputFocusStack.setFocus opId }
  State.keyboardSetFocus { st with pinnacle := pin } (some windowId)

/-- The unfocus path of `set_focused` (`Unset`/`Toggle` when the window
is the output's focused window): unset the output's focus stack and
clear keyboard focus with a fresh serial. -/
def setFocusedUnset (st : State) (opId : Nat) : State :=
  let pin := st.pinnacle.updateOutput opId fun o =>
    { o with focusStack := o.focusStack.unsetFocus }
  State.keyboardSetFocus { st with pinnacle := pin } none

/-- The body of `WindowService::set_focused` (lines 294-361): look up
the window, bail on X11 override-redirect windows and windows without an
output, deactivate every window in the space, dispatch on the mode, then
send a configure to every toplevel window and schedule a render on the
window's output.  The `Unspecified` arm is `unreachable!()` in the
source because the RPC rejects it first. -/
def setFocusedImpl (st : State) (windowId : Nat) (mode : SetOrToggle) : State :=
  match st.pinnacle.findWindow windowId with
  | none => st
  | some window =>
    if window.overrideRedirect then st
    else
      match Window.output st.pinnacle window with
      | none => st
      | some opId =>
        let st' := { st with pinnacle :=
          { st.pinnacle with
              windows := st.pinnacle.windows.map fun w => { w with activated := false } } }
        let st' :=
          match mode with
          | .set => setFocusedActivate st' windowId opId
          | .unset =>
            if st'.pinnacle.focusedWindow opId = some windowId then
              setFocusedUnset st' opId
            else st'
          | .toggle =>
            if st'.pinnacle.focusedWindow opId = some windowId then
              setFocusedUnset st' opId
            else setFocusedActivate st' windowId opId
          | .unspecified => st'
        let toplevels : List Nat :=
          (st'.pinnacle.windows.filter (fun w => w.hasToplevel)).map (fun w => w.id)
        let st' := { st' with configuresSent := toplevels ++ st'.configuresSent }
        st'.scheduleRender opId

/-- The full `set_focused` RPC (lines 276-363). -/
def setFocusedRpc (windowId? : Option Nat) (mode : SetOrToggle)
    (st : State) : Except String State :=
  match windowId? with
  | none => .error "no window specified"
  | some wid =>
    if mode = .unspecified then .error "unspecified set or toggle"
    else .ok (setFocusedImpl st wid mode)

/-! ## Batch-mapping blockers

From `new_toplevel` in `src/handlers/xdg_shell.rs` (lines 74-136): when
a new toplevel arrives on the focused output, the layout runs, the
global `BLOCKER_COUNTER` is set to 1, a commit blocker is attached to
the surface of every sibling window already on that output (computed
before the new window is pushed), and an idle callback schedules the
release through `schedule_on_commit` over a vector holding just the new
window. -/

/-- The blocker-relevant state during a batch mapping: the counter, the
set of surfaces carrying a commit blocker, the windows the pending
`schedule_on_commit` callback waits on, whether that callback is still
pending, and which windows have had a post-layout commit processed. -/
structure BatchState where
  blockerCounter : Nat
  blocked : List Nat
  waitingOn : List Nat
  hasCallback : Bool
  committed : List Nat
deriving DecidableEq, Repr

/-- The blocker set-up of `new_toplevel`, given the ids of the sibling
windows on the focused output and the new window's id: store 1 in
`BLOCKER_COUNTER`, attach a blocker to every sibling, and register the
release callback over just the new window (`vec![clone]`). -/
def newToplevelBatch (siblings : List Nat) (newWin : Nat) : BatchState :=
  { blockerCounter := 1
    blocked := siblings
    waitingOn := [newWin]
    hasCallback := true
    committed := [] }

/-- A post-layout commit event on window `w`.  A commit on a surface
carrying a blocker is held back and not processed.  Otherwise the commit
is recorded and — modelled from the spec: `schedule_on_commit`
(`src/state.rs`, not under `src/`) runs its callback once every window
passed to it has committed — when every window the pending callback
waits on has committed, the callback stores 0 in `BLOCKER_COUNTER` and
clears the blocker of every blocked client. -/
def commitEvent (s : BatchState) (w : Nat) : BatchState :=
  if s.blocked.contains w then s
  else if s.hasCallback && s.waitingOn.all (fun x => (w :: s.committed).contains x) then
    { s with
        blockerCounter := 0
        blocked := []
        hasCallback := false
        committed := w :: s.committed }
  else { s with committed := w :: s.committed }

/-- A sequence of post-layout commit events. -/
def runCommits (s : BatchState) (ws : List Nat) : BatchState :=
  ws.foldl commitEvent s

/-- The invariant maintained by `commitEvent` after `newToplevelBatch`:
the callback always waits on exactly the new window; a released counter
means the new window has committed; an unreleased counter means every
sibling still carries its blocker and none has had a post-layout commit
processed. -/
def BatchInv (siblings : List Nat) (newWin : Nat) (s : BatchState) : Prop :=
  s.waitingOn = [newWin] ∧
    (s.blockerCounter = 0 → newWin ∈ s.committed) ∧
    (s.blockerCounter = 1 → s.blocked = siblings ∧ ∀ w ∈ siblings, w ∉ s.committed) ∧
    (s.blockerCounter = 0 ∨ s.blockerCounter = 1)

/-! ## Popup positioning

From `Pinnacle::position_popup` in `src/handlers.rs` (lines 641-694). -/

/-- The popup positioner configuration: its unconstrained default
geometry (`PositionerState::get_geometry()`) and whether the
`ConstraintAdjustment::FlipX` flag is present. -/
structure Positioner where
  defaultGeometry : Rect
  flipX : Bool
deriving DecidableEq, Repr

/-- `positioner.constraint_adjustment.remove(ConstraintAdjustment::FlipX)`. -/
def Positioner.removeFlipX (p : Positioner) : Positioner :=
  { p with flipX := false }

/-- The popup's pending state: its pending geometry and positioner. -/
structure PopupPending where
  geometry : Rect
  positioner : Positioner
deriving DecidableEq, Repr

/-- The lookups `position_popup` performs, gathered as inputs: whether
`find_popup_root_surface` succeeded and on which surface, the popup's
parent surface, the root's window (`window_for_surface`) and its space
geometry (`element_geometry`), the focused output, the layer-surface
branch result (global layer location and its output), the accumulated
popup offset (`get_popup_toplevel_coords`), and the space's per-output
geometries (`output_geometry`). -/
structure PopupCtx where
  rootFound : Bool
  rootSurface : Nat
  parentSurface : Option Nat
  rootWindow : Option Nat
  rootWindowGeo : Option Rect
  focusedOutput : Option Nat
  layerLookup : Option (Pt × Nat)
  popupToplevelCoords : Pt
  outputGeo : List (Nat × Rect)
deriving DecidableEq, Repr

/-- The fallible geometry closure of `position_popup` (the `(|| -> Option
<Rectangle>| { ... })()` block), threading the mutated positioner: on a
toplevel popup (parent = root) the FlipX adjustment is removed; the
root's global location and output come from the window branch or the
layer branch; the output geometry is translated into the parent-local
space; `get_unconstrained_geometry` (smithay, external) is abstracted as
the `unconstrained` argument. -/
def popupGeoCalc (ctx : PopupCtx) (unconstrained : Positioner → Rect → Rect)
    (positioner : Positioner) : Option Rect × Positioner :=
  match ctx.parentSurface with
  | none => (none, positioner)
  | some parent =>
    let positioner :=
      if parent = ctx.rootSurface then positioner.removeFlipX else positioner
    let rootLocOutput : Option (Pt × Nat) :=
      match ctx.rootWindow with
      | some _ =>
        match ctx.rootWindowGeo, ctx.focusedOutput with
        | some winGeo, some op => some (winGeo.loc, op)
        | _, _ => none
      | none => ctx.layerLookup
    match rootLocOutput with
    | none => (none, positioner)
    | some (rootGlobalLoc, output) =>
      let parentGlobalLoc : Pt :=
        if ctx.rootSurface = parent then rootGlobalLoc
        else
          ⟨rootGlobalLoc.x + ctx.popupToplevelCoords.x,
            rootGlobalLoc.y + ctx.popupToplevelCoords.y⟩
      match ctx.outputGeo.lookup output with
      | none => (none, positioner)
      | some outGeo =>
        let outGeo : Rect :=
          { outGeo with
              loc := ⟨outGeo.loc.x - parentGlobalLoc.x, outGeo.loc.y - parentGlobalLoc.y⟩ }
        (some (unconstrained positioner outGeo), positioner)

/-- `Pinnacle::position_popup`: if the root surface is not found, return
early (leaving the pending state untouched); otherwise take the pending
positioner, run the geometry closure, fall back to
`positioner.get_geometry()` when it yields nothing, and store the
resulting geometry and positioner back into the pending state. -/
def positionPopup (ctx : PopupCtx) (unconstrained : Positioner → Rect → Rect)
    (pending : PopupPending) : PopupPending :=
  if ctx.rootFound then
    let res := popupGeoCalc ctx unconstrained pending.positioner
    { geometry := res.1.getD res.2.defaultGeometry, positioner := res.2 }
  else pending

/-! ## Concrete fixtures used by witnesses and counterexamples -/

/-- A tag on output 10. -/
def tag5 : Tag := ⟨5, some 10⟩

/-- Output 10, whose focus stack currently focuses window 1. -/
def output10 : Output := ⟨10, ⟨[1], true⟩⟩

/-- Window 1: a mapped, activated Wayland toplevel on tag 5. -/
def win1 : Window :=
  { id := 1, surface := .wayland, overrideRedirect := false, hasToplevel := true
    activated := true, size := ⟨100, 80⟩, tags := [5]
    floatingOrTiled := .tiled none, fullscreenOrMaximized := .neither }

/-- Window 2: a mapped, unactivated Wayland toplevel on tag 5. -/
def win2 : Window :=
  { id := 2, surface := .wayland, overrideRedirect := false, hasToplevel := true
    activated := false, size := ⟨100, 80⟩, tags := [5]
    floatingOrTiled := .tiled none, fullscreenOrMaximized := .neither }

/-- A two-window object graph on one output. -/
def basePin : PinnacleState :=
  { windows := [win1, win2]
    tags := [tag5]
    outputs := [output10]
    outputFocusStack := ⟨[10], true⟩
    spaceLoc := [(1, ⟨0, 0⟩), (2, ⟨50, 0⟩)]
    outputGeometry := [(10, ⟨⟨0, 0⟩, ⟨1920, 1080⟩⟩)]
    zOrder := [1, 2] }

/-- The base event-loop state over `basePin`, with a keyboard present. -/
def baseState : State :=
  { pinnacle := basePin
    hasKeyboard := true
    keyboardFocus := some 1
    keyboardSerial := some 0
    serialCounter := 1
    layoutRequests := []
    renderSchedules := []
    configuresSent := []
    closeRequests := [] }

/-- A pending popup whose current geometry differs from its positioner's
default geometry. -/
def exPending : PopupPending :=
  { geometry := ⟨⟨5, 5⟩, ⟨7, 7⟩⟩
    positioner := { defaultGeometry := ⟨⟨0, 0⟩, ⟨30, 20⟩⟩, flipX := true } }

/-- A positioning context whose root-surface lookup failed. -/
def exCtxNoRoot : PopupCtx :=
  { rootFound := false, rootSurface := 0, parentSurface := some 0
    rootWindow := none, rootWindowGeo := none, focusedOutput := none
    layerLookup := none, popupToplevelCoords := ⟨0, 0⟩, outputGeo := [] }

/-- A positioning context whose root was found but whose popup has no
parent surface. -/
def exCtxNoParent : PopupCtx :=
  { rootFound := true, rootSurface := 0, parentSurface := none
    rootWindow := none, rootWindowGeo := none, focusedOutput := none
    layerLookup := none, popupToplevelCoords := ⟨0, 0⟩, outputGeo := [] }

end Pinnacle

namespace Pinnacle

/-! ## Claim theorems: C1 and C5 -/

/-- C1: for a window in `Requested(serial, new_loc)`, `ack_configure`
with a toplevel configure moves the resize state to
`Acknowledged(new_loc)` iff the configure's serial is ≥ the stored
serial; a smaller serial leaves the state (hence the recorded geometry)
unchanged, sending no frame. -/
theorem ack_configure_requested_transition
    (focusedOutput : Option Nat) (serial cserial : Nat) (newLoc : Pt) :
    ((∃ f, ackConfigure focusedOutput (.requested serial newLoc)
        (.toplevel cserial) = some (.acknowledged newLoc, f)) ↔
      serial ≤ cserial) ∧
      (cserial < serial →
        ackConfigure focusedOutput (.requested serial newLoc)
          (.toplevel cserial) = some (.requested serial newLoc, false)) := by
  constructor
  · constructor
    · intro ⟨f, hf⟩
      by_contra hlt
      simp [ackConfigure, hlt] at hf
    · intro h
      exact ⟨focusedOutput.isSome, by simp [ackConfigure, h]⟩
  · intro h
    simp [ackConfigure, Nat.not_le_of_lt h]

/-- Witness for C1: at stored serial 5, an ack with serial 5 transitions
to `Acknowledged`, and an ack with serial 4 leaves the state unchanged. -/
theorem ack_configure_requested_transition_witness :
    (∃ f, ackConfigure (some 0) (.requested 5 ⟨1, 2⟩)
        (.toplevel 5) = some (.acknowledged ⟨1, 2⟩, f)) ∧
      ackConfigure (some 0) (.requested 5 ⟨1, 2⟩) (.toplevel 4) =
        some (.requested 5 ⟨1, 2⟩, false) :=
  ⟨(ack_configure_requested_transition (some 0) 5 5 ⟨1, 2⟩).1.mpr (by decide),
   (ack_configure_requested_transition (some 0) 5 4 ⟨1, 2⟩).2 (by decide)⟩

/-- C5: resize-edge inference for a 100×100 window at the origin: the
exact center resolves to `TopLeft` (inclusive lower-quadrant tie-break),
(99,99) resolves to `BottomRight`, and any pointer outside the window's
bounds resolves to `None`. -/
theorem resize_grab_edges_quadrants :
    resizeGrabEdges 0 0 100 100 50 50 = .topLeft ∧
      resizeGrabEdges 0 0 100 100 99 99 = .bottomRight ∧
      ∀ px py : ℚ, (px < 0 ∨ 100 < px ∨ py < 0 ∨ 100 < py) →
        resizeGrabEdges 0 0 100 100 px py = .none := by
  refine ⟨by norm_num [resizeGrabEdges], by norm_num [resizeGrabEdges], ?_⟩
  intro px py h
  rcases h with h | h | h | h
  all_goals simp only [resizeGrabEdges]
  all_goals repeat' rw [if_neg (by intro hc; obtain ⟨h1, h2, h3, h4⟩ := hc; linarith)]

/-- Witness for C5: the pointer (150, 50) is outside the window's bounds
and resolves to `None`. -/
theorem resize_grab_edges_quadrants_witness :
    resizeGrabEdges 0 0 100 100 150 50 = .none :=
  resize_grab_edges_quadrants.2.2 150 50 (by norm_num)

/-! ## Helper lemmas -/

/-- `List.find?` commutes with mapping by a function that preserves the
predicate. -/
theorem find_map_pred_inv {α : Type} (g : α → α) (p : α → Bool)
    (h : ∀ a, p (g a) = p a) :
    ∀ l : List α, (l.map g).find? p = (l.find? p).map g := by
  intro l
  induction l with
  | nil => rfl
  | cons a l ih =>
    by_cases hp : p a = true
    · simp [List.find?_cons, h a, hp]
    · simp [List.find?_cons, h a, hp, ih]

/-- A window found by id has that id. -/
theorem findWindow_id {pin : PinnacleState} {i : Nat} {w : Window}
    (h : pin.findWindow i = some w) : w.id = i := by
  simpa using List.find?_some h

/-- A tag found by id has that id. -/
theorem findTag_id {pin : PinnacleState} {i : Nat} {t : Tag}
    (h : pin.findTag i = some t) : t.id = i := by
  simpa using List.find?_some h

/-- A window found by id is in the window list. -/
theorem findWindow_mem {pin : PinnacleState} {i : Nat} {w : Window}
    (h : pin.findWindow i = some w) : w ∈ pin.windows :=
  List.mem_of_find?_eq_some h

/-- Looking up the updated id after `updateWindow` returns the updated
window, provided the update preserves ids. -/
theorem findWindow_updateWindow (pin : PinnacleState) (i : Nat)
    (f : Window → Window) (hf : ∀ w, (f w).id = w.id) :
    (pin.updateWindow i f).findWindow i =
      (pin.findWindow i).map fun w => if w.id = i then f w else w := by
  unfold PinnacleState.findWindow PinnacleState.updateWindow
  exact find_map_pred_inv _ _
    (fun a => by by_cases h : a.id = i <;> simp [h, hf a]) _

/-- Looking up the updated id after `updateOutput` returns the updated
output, provided the update preserves ids. -/
theorem findOutput_updateOutput (pin : PinnacleState) (i : Nat)
    (f : Output → Output) (hf : ∀ o, (f o).id = o.id) :
    (pin.updateOutput i f).findOutput i =
      (pin.findOutput i).map fun o => if o.id = i then f o else o := by
  unfold PinnacleState.findOutput PinnacleState.updateOutput
  exact find_map_pred_inv _ _
    (fun a => by by_cases h : a.id = i <;> simp [h, hf a]) _

/-! ## Claim theorems: C2 -/

/-- The blocker invariant holds right after `new_toplevel` sets up the
batch. -/
theorem batchInv_init (siblings : List Nat) (newWin : Nat) :
    BatchInv siblings newWin (newToplevelBatch siblings newWin) := by
  refine ⟨rfl, by simp [newToplevelBatch], fun _ => ⟨rfl, by simp [newToplevelBatch]⟩, ?_⟩
  right; rfl

/-- `commitEvent` preserves the blocker invariant. -/
theorem batchInv_step {siblings : List Nat} {newWin : Nat} (s : BatchState)
    (w : Nat) (hs : BatchInv siblings newWin s) :
    BatchInv siblings newWin (commitEvent s w) := by
  obtain ⟨hwait, h0, h1, hor⟩ := hs
  unfold commitEvent
  split
  next hb => exact ⟨hwait, h0, h1, hor⟩
  next hb =>
    split
    next hrel =>
      refine ⟨hwait, fun _ => ?_, fun hc => (Nat.zero_ne_one hc).elim, Or.inl rfl⟩
      rw [hwait] at hrel
      have h2 := ((Bool.and_eq_true _ _).mp hrel).2
      have hmem : newWin ∈ w :: s.committed := by simpa using h2
      exact hmem
    next hrel =>
      refine ⟨hwait, fun hc => List.mem_cons_of_mem _ (h0 hc), fun hc => ?_, ?_⟩
      · obtain ⟨hbl, hnc⟩ := h1 hc
        refine ⟨hbl, fun v hv => ?_⟩
        have hvw : v ≠ w := by
          rintro rfl
          exact hb (by simpa [hbl] using hv)
        simp only [List.mem_cons]
        rintro (rfl | hmem)
        · exact hvw rfl
        · exact hnc v hv hmem
      · simpa using hor

/-- The blocker invariant holds along any sequence of commit events. -/
theorem batchInv_run {siblings : List Nat} {newWin : Nat} (s : BatchState)
    (hs : BatchInv siblings newWin s) (ws : List Nat) :
    BatchInv siblings newWin (runCommits s ws) := by
  induction ws generalizing s with
  | nil => exact hs
  | cons w ws ih => exact ih _ (batchInv_step s w hs)

/-- C2 counterexample: in the batch with blocked siblings 1 and 2 and
new window 3, a single post-layout commit by the new window releases the
counter and clears both blockers even though neither blocked sibling has
had a post-layout commit processed — refuting "the counter is released
only after every blocked window has committed once". -/
theorem batch_release_without_sibling_commit :
    (commitEvent (newToplevelBatch [1, 2] 3) 3).blockerCounter = 0 ∧
      (commitEvent (newToplevelBatch [1, 2] 3) 3).blocked = [] ∧
      1 ∉ (commitEvent (newToplevelBatch [1, 2] 3) 3).committed ∧
      2 ∉ (commitEvent (newToplevelBatch [1, 2] 3) 3).committed := by decide

/-- C2 (amended): `new_toplevel` raises the counter to 1 and attaches a
blocker to every sibling on the output; along any sequence of commit
events, the counter is released only once the newly mapped window has
committed post-layout, and while it is unreleased every sibling still
carries its blocker and no post-layout commit of a sibling has been
processed (so no sibling frame at its new position has been
delivered). -/
theorem batch_blocker_protocol (siblings : List Nat) (newWin : Nat)
    (evs : List Nat) :
    (newToplevelBatch siblings newWin).blockerCounter = 1 ∧
      (newToplevelBatch siblings newWin).blocked = siblings ∧
      ((runCommits (newToplevelBatch siblings newWin) evs).blockerCounter = 0 →
        newWin ∈ (runCommits (newToplevelBatch siblings newWin) evs).committed) ∧
      ((runCommits (newToplevelBatch siblings newWin) evs).blockerCounter ≠ 0 →
        (runCommits (newToplevelBatch siblings newWin) evs).blocked = siblings ∧
          ∀ w ∈ siblings,
            w ∉ (runCommits (newToplevelBatch siblings newWin) evs).committed) := by
  obtain ⟨hwait, h0, h1, hor⟩ :=
    batchInv_run _ (batchInv_init siblings newWin) evs
  refine ⟨rfl, rfl, h0, fun hne => h1 ?_⟩
  rcases hor with hz | ho
  · exact absurd hz hne
  · exact ho

/-- Witness for C2: with siblings 1 and 2 and new window 3, after the
commit sequence [3] the counter is released, and the theorem yields that
the new window has indeed committed. -/
theorem batch_blocker_protocol_witness :
    3 ∈ (runCommits (newToplevelBatch [1, 2] 3) [3]).committed :=
  (batch_blocker_protocol [1, 2] 3 [3]).2.2.1 (by decide)

/-! ## Claim theorems: C9 -/

/-- C9 counterexample: when `find_popup_root_surface` fails,
`position_popup` returns early and the pending geometry is left
unchanged — it is not set to the positioner's default geometry,
refuting "if any lookup fails ... the pending geometry is set to the
positioner's default geometry". -/
theorem position_popup_no_root_keeps_geometry :
    positionPopup exCtxNoRoot (fun _ r => r) exPending = exPending ∧
      exPending.geometry ≠ exPending.positioner.defaultGeometry := by
  exact ⟨rfl, by decide⟩

/-- C9 (amended): when the root ancestor is found, every failing lookup
inside the positioning computation (no parent surface; a root window
without space geometry or no focused output; neither a root window nor a
layer-surface hit; no output geometry) makes the popup's pending
geometry fall back to the positioner's default geometry with no
constraint solving; when the root ancestor itself is not found, the
handler returns early and the pending state is left unchanged. -/
theorem position_popup_fallback (ctx : PopupCtx)
    (unconstrained : Positioner → Rect → Rect) (pending : PopupPending)
    (hroot : ctx.rootFound = true) :
    (ctx.parentSurface = none →
      positionPopup ctx unconstrained pending =
        { geometry := pending.positioner.defaultGeometry
          positioner := pending.positioner }) ∧
      (∀ p, ctx.parentSurface = some p → ctx.rootWindow.isSome →
        ctx.rootWindowGeo = none ∨ ctx.focusedOutput = none →
        (positionPopup ctx unconstrained pending).geometry =
          pending.positioner.defaultGeometry) ∧
      (∀ p, ctx.parentSurface = some p → ctx.rootWindow = none →
        ctx.layerLookup = none →
        (positionPopup ctx unconstrained pending).geometry =
          pending.positioner.defaultGeometry) ∧
      (ctx.outputGeo = [] →
        (positionPopup ctx unconstrained pending).geometry =
          pending.positioner.defaultGeometry) := by
  unfold positionPopup popupGeoCalc
  refine ⟨fun hp => ?_, fun p hp hw hfail => ?_, fun p hp hw hl => ?_, fun hg => ?_⟩
  · simp [hroot, hp]
  · rw [hroot]
    obtain ⟨rw', hrw⟩ := Option.isSome_iff_exists.mp hw
    rcases hfail with hgeo | hout
    · simp only [hp, hrw, hgeo, if_true]
      rcases ctx.focusedOutput with _ | op <;>
        by_cases hpr : p = ctx.rootSurface <;>
          simp [hpr, Positioner.removeFlipX]
    · simp only [hp, hrw, hout, if_true]
      rcases ctx.rootWindowGeo with _ | geo <;>
        by_cases hpr : p = ctx.rootSurface <;>
          simp [hpr, Positioner.removeFlipX]
  · rw [hroot]
    simp only [hp, hw, hl, if_true]
    by_cases hpr : p = ctx.rootSurface <;> simp [hpr, Positioner.removeFlipX]
  · rw [hroot]
    rcases hps : ctx.parentSurface with _ | p
    · simp
    · simp only [if_true]
      by_cases hpr : p = ctx.rootSurface <;>
        rcases hw : ctx.rootWindow with _ | rootWin <;>
          rcases hl : ctx.layerLookup with _ | ⟨loc, op⟩ <;>
            rcases hgeo : ctx.rootWindowGeo with _ | geo <;>
              rcases hout : ctx.focusedOutput with _ | fop <;>
                simp [hpr, hg, Positioner.removeFlipX]

/-- Witness for C9: in a context whose root is found but whose popup has
no parent surface, the pending geometry becomes the positioner's default
geometry. -/
theorem position_popup_fallback_witness :
    positionPopup exCtxNoParent (fun _ r => r) exPending =
      { geometry := exPending.positioner.defaultGeometry
        positioner := exPending.positioner } :=
  (position_popup_fallback exCtxNoParent (fun _ r => r) exPending rfl).1 rfl

/-! ## Claim theorems: C3 and C4 -/

/-- An output found by id has that id. -/
theorem findOutput_id {pin : PinnacleState} {i : Nat} {o : Output}
    (h : pin.findOutput i = some o) : o.id = i := by
  simpa using List.find?_some h

/-- A resolved owning output exists in the output list. -/
theorem windowOutput_findOutput {pin : PinnacleState} {w : Window} {opId : Nat}
    (h : Window.output pin w = some opId) :
    ∃ o, pin.findOutput opId = some o := by
  unfold Window.output at h
  obtain ⟨tid, _, hres⟩ := List.exists_of_findSome?_eq_some h
  obtain ⟨t, _, hres⟩ := Option.bind_eq_some.mp hres
  obtain ⟨oid, _, hres⟩ := Option.bind_eq_some.mp hres
  obtain ⟨o, ho, hid⟩ := Option.map_eq_some'.mp hres
  refine ⟨o, ?_⟩
  rw [← hid, findOutput_id ho]
  exact ho

/-- Counting windows by a predicate equals counting their ids. -/
theorem countP_id_eq_count {l : List Window} {i : Nat} :
    (l.countP fun v => v.id == i) = (l.map Window.id).count i := by
  rw [List.count, List.countP_map]
  rfl

/-- C3: after `set_focused` with `Set` on an existing,
non-override-redirect window with an output (and a keyboard on the
seat), exactly one window compositor-wide is activated and it is the
target: the target is the focused front of its output's focus stack,
that output is the front of the global output focus stack, and keyboard
focus is set to the target using the fresh next serial. -/
theorem set_focused_set_exclusive (st : State) (wid opId : Nat) (w : Window)
    (hw : st.pinnacle.findWindow wid = some w)
    (hor : w.overrideRedirect = false)
    (hop : Window.output st.pinnacle w = some opId)
    (hkb : st.hasKeyboard = true)
    (hnodup : (st.pinnacle.windows.map Window.id).Nodup) :
    ((setFocusedImpl st wid .set).pinnacle.windows.countP
        (fun v => v.activated) = 1) ∧
      (∀ v ∈ (setFocusedImpl st wid .set).pinnacle.windows,
        v.activated = true ↔ v.id = wid) ∧
      (setFocusedImpl st wid .set).pinnacle.focusedWindow opId = some wid ∧
      (setFocusedImpl st wid .set).pinnacle.outputFocusStack.currentFocus =
        some opId ∧
      (setFocusedImpl st wid .set).keyboardFocus = some wid ∧
      (setFocusedImpl st wid .set).keyboardSerial = some st.serialCounter ∧
      (setFocusedImpl st wid .set).serialCounter = st.serialCounter + 1 := by
  obtain ⟨o, ho⟩ := windowOutput_findOutput hop
  have hwid := findWindow_id hw
  have hwmem : wid ∈ st.pinnacle.windows.map Window.id :=
    hwid ▸ List.mem_map_of_mem Window.id (findWindow_mem hw)
  simp only [setFocusedImpl, hw, hor, hop, setFocusedActivate,
    State.keyboardSetFocus, State.scheduleRender, PinnacleState.updateWindow,
    PinnacleState.updateOutput, PinnacleState.focusedWindow, hkb,
    Bool.false_eq_true, if_false, if_true, List.map_map]
  refine ⟨?_, ?_, ?_, ?_, trivial, trivial, trivial⟩
  · rw [List.countP_map]
    have heq : ∀ v : Window,
        ((fun x => x.activated) ∘
          (fun x => if x.id = wid then { x with activated := true } else x) ∘
          (fun x => { x with activated := false })) v = (v.id == wid) := by
      intro v
      by_cases h : v.id = wid <;> simp [h]
    rw [funext heq, countP_id_eq_count, List.count_eq_one_of_mem hnodup hwmem]
  · intro v hv
    obtain ⟨v0, _, hv0⟩ := List.mem_map.mp hv
    by_cases h : v0.id = wid <;> simp [← hv0, Function.comp, h]
  · have hfind : List.find? (fun oo => oo.id == opId)
        (st.pinnacle.outputs.map fun oo =>
          if oo.id = opId then
            { oo with focusStack := oo.focusStack.setFocus wid }
          else oo) =
        some { o with focusStack := o.focusStack.setFocus wid } := by
      rw [find_map_pred_inv _ _
        (fun a => by by_cases h : a.id = opId <;> simp [h]) _]
      rw [show List.find? (fun oo => oo.id == opId) st.pinnacle.outputs = some o
        from ho]
      rw [Option.map_some', if_pos (findOutput_id ho)]
    simp only [PinnacleState.findOutput] at hfind ⊢
    rw [hfind]
    simp [FocusStack.setFocus, FocusStack.currentFocus]
  · simp [FocusStack.setFocus, FocusStack.currentFocus]

/-- Witness for C3: focusing window 2 of the two-window fixture leaves
exactly window 2 activated, focused on output 10, with keyboard focus on
window 2 under the fresh serial. -/
theorem set_focused_set_exclusive_witness :
    ((setFocusedImpl baseState 2 .set).pinnacle.windows.countP
        (fun v => v.activated) = 1) ∧
      (∀ v ∈ (setFocusedImpl baseState 2 .set).pinnacle.windows,
        v.activated = true ↔ v.id = 2) ∧
      (setFocusedImpl baseState 2 .set).pinnacle.focusedWindow 10 = some 2 ∧
      (setFocusedImpl baseState 2 .set).pinnacle.outputFocusStack.currentFocus =
        some 10 ∧
      (setFocusedImpl baseState 2 .set).keyboardFocus = some 2 ∧
      (setFocusedImpl baseState 2 .set).keyboardSerial =
        some baseState.serialCounter ∧
      (setFocusedImpl baseState 2 .set).serialCounter =
        baseState.serialCounter + 1 :=
  set_focused_set_exclusive baseState 2 10 win2 (by decide) (by decide)
    (by decide) (by decide) (by decide)

/-- Mapping a field-preserving update commutes with the toplevel filter
and id projection. -/
theorem filter_toplevel_map_deactivate (l : List Window) :
    (((l.map fun v => { v with activated := false }).filter
        (fun v => v.hasToplevel)).map fun v => v.id) =
      ((l.filter fun v => v.hasToplevel).map fun v => v.id) := by
  induction l with
  | nil => rfl
  | cons a l ih => by_cases h : a.hasToplevel <;> simp [h, ih, List.filter_cons]

/-- C4 counterexample: in the fixture, window 2 is not output 10's
focused window (window 1 is), yet `set_focused` with `Unset` on window 2
is not a no-op: window 1's activated flag is cleared and a configure is
sent to every toplevel window. -/
theorem set_focused_unset_not_noop :
    baseState.pinnacle.focusedWindow 10 = some 1 ∧
      ((setFocusedImpl baseState 2 .unset).pinnacle.windows.map
        (fun v => v.activated)) = [false, false] ∧
      (baseState.pinnacle.windows.map fun v => v.activated) = [true, false] ∧
      (setFocusedImpl baseState 2 .unset).configuresSent = [1, 2] ∧
      baseState.configuresSent = [] := by decide

/-- C4 (amended): `set_focused` with `Unset` on an existing,
non-override-redirect window with an output that is not its output's
focus target leaves the focus stacks, keyboard focus, serial counter and
space untouched and performs no layout request — but it is not a no-op:
every window's activated flag is cleared, a configure is sent to every
toplevel window, and a render is scheduled on the window's output. -/
theorem set_focused_unset_not_focused (st : State) (wid opId : Nat) (w : Window)
    (hw : st.pinnacle.findWindow wid = some w)
    (hor : w.overrideRedirect = false)
    (hop : Window.output st.pinnacle w = some opId)
    (hnf : st.pinnacle.focusedWindow opId ≠ some wid) :
    (setFocusedImpl st wid .unset).pinnacle.windows =
        (st.pinnacle.windows.map fun v => { v with activated := false }) ∧
      (setFocusedImpl st wid .unset).pinnacle.outputs = st.pinnacle.outputs ∧
      (setFocusedImpl st wid .unset).pinnacle.outputFocusStack =
        st.pinnacle.outputFocusStack ∧
      (setFocusedImpl st wid .unset).pinnacle.spaceLoc = st.pinnacle.spaceLoc ∧
      (setFocusedImpl st wid .unset).pinnacle.zOrder = st.pinnacle.zOrder ∧
      (setFocusedImpl st wid .unset).keyboardFocus = st.keyboardFocus ∧
      (setFocusedImpl st wid .unset).keyboardSerial = st.keyboardSerial ∧
      (setFocusedImpl st wid .unset).serialCounter = st.serialCounter ∧
      (setFocusedImpl st wid .unset).layoutRequests = st.layoutRequests ∧
      (setFocusedImpl st wid .unset).configuresSent =
        ((st.pinnacle.windows.filter fun v => v.hasToplevel).map fun v => v.id)
          ++ st.configuresSent ∧
      (setFocusedImpl st wid .unset).renderSchedules =
        opId :: st.renderSchedules := by
  have hnf' : ((List.find? (fun oo => oo.id == opId) st.pinnacle.outputs).bind
      fun oo => oo.focusStack.currentFocus) ≠ some wid := by
    simpa [PinnacleState.focusedWindow, PinnacleState.findOutput] using hnf
  simp only [setFocusedImpl, hw, hor, hop, PinnacleState.focusedWindow,
    PinnacleState.findOutput, State.scheduleRender, Bool.false_eq_true, if_false]
  rw [if_neg hnf']
  refine ⟨rfl, rfl, rfl, rfl, rfl, rfl, rfl, rfl, rfl, ?_, rfl⟩
  rw [filter_toplevel_map_deactivate]

/-- Witness for C4: unsetting focus on the unfocused window 2 of the
fixture clears activation flags and sends configures but leaves focus
state untouched. -/
theorem set_focused_unset_not_focused_witness :
    (setFocusedImpl baseState 2 .unset).pinnacle.windows =
        (baseState.pinnacle.windows.map fun v => { v with activated := false }) ∧
      (setFocusedImpl baseState 2 .unset).pinnacle.outputs =
        baseState.pinnacle.outputs ∧
      (setFocusedImpl baseState 2 .unset).pinnacle.outputFocusStack =
        baseState.pinnacle.outputFocusStack ∧
      (setFocusedImpl baseState 2 .unset).pinnacle.spaceLoc =
        baseState.pinnacle.spaceLoc ∧
      (setFocusedImpl baseState 2 .unset).pinnacle.zOrder =
        baseState.pinnacle.zOrder ∧
      (setFocusedImpl baseState 2 .unset).keyboardFocus =
        baseState.keyboardFocus ∧
      (setFocusedImpl baseState 2 .unset).keyboardSerial =
        baseState.keyboardSerial ∧
      (setFocusedImpl baseState 2 .unset).serialCounter =
        baseState.serialCounter ∧
      (setFocusedImpl baseState 2 .unset).layoutRequests =
        baseState.layoutRequests ∧
      (setFocusedImpl baseState 2 .unset).configuresSent =
        ((baseState.pinnacle.windows.filter fun v => v.hasToplevel).map
          fun v => v.id) ++ baseState.configuresSent ∧
      (setFocusedImpl baseState 2 .unset).renderSchedules =
        10 :: baseState.renderSchedules :=
  set_focused_unset_not_focused baseState 2 10 win2 (by decide) (by decide)
    (by decide) (by decide)

/-! ## Claim theorems: C6, C7, C8, C10 -/

/-- The layout-and-render loop only appends to the logs: the object
graph is untouched. -/
theorem foldl_layout_render_pinnacle (l : List Nat) (st0 : State) :
    (l.foldl (fun s op => (s.requestLayout op).scheduleRender op) st0).pinnacle =
      st0.pinnacle := by
  induction l generalizing st0 with
  | nil => rfl
  | cons a l ih =>
    rw [List.foldl_cons, ih]
    rfl

/-- C6: for an existing window mapped at `loc`, `set_geometry` merges
exactly the provided fields into the window's current rectangle (space
location plus `geometry().size`), every omitted field keeping its
previous value, and stores the merged rectangle under the window's
current mode, preserving Floating vs Tiled. -/
theorem set_geometry_merges (st : State) (wid : Nat) (w : Window) (loc : Pt)
    (g : GeometryMsg)
    (hw : st.pinnacle.findWindow wid = some w)
    (hloc : st.pinnacle.spaceLoc.lookup wid = some loc) :
    (∀ r0, w.floatingOrTiled = .floating r0 →
      (setGeometryImpl st wid g).pinnacle.findWindow wid =
        some { w with floatingOrTiled := .floating (Rect.fromLocAndSize
          ⟨g.x.getD loc.x, g.y.getD loc.y⟩
          ⟨g.width.getD w.size.w, g.height.getD w.size.h⟩) }) ∧
      (∀ r0, w.floatingOrTiled = .tiled r0 →
        (setGeometryImpl st wid g).pinnacle.findWindow wid =
          some { w with floatingOrTiled := .tiled (some (Rect.fromLocAndSize
            ⟨g.x.getD loc.x, g.y.getD loc.y⟩
            ⟨g.width.getD w.size.w, g.height.getD w.size.h⟩)) }) := by
  have hwid := findWindow_id hw
  constructor
  · intro r0 hr
    simp only [setGeometryImpl, hw, hloc, Option.getD_some]
    rw [foldl_layout_render_pinnacle]
    show (st.pinnacle.updateWindow wid _).findWindow wid = _
    rw [findWindow_updateWindow _ _ _ (by intro v; rfl), hw, Option.map_some',
      if_pos hwid, hr]
  · intro r0 hr
    simp only [setGeometryImpl, hw, hloc, Option.getD_some]
    rw [foldl_layout_render_pinnacle]
    show (st.pinnacle.updateWindow wid _).findWindow wid = _
    rw [findWindow_updateWindow _ _ _ (by intro v; rfl), hw, Option.map_some',
      if_pos hwid, hr]

/-- Witness for C6: setting x = 10 and height = 60 on the tiled window 1
of the fixture (mapped at the origin with size 100×80) stores the tiled
rectangle at (10, 0) with size 100×60 — y and width keep their previous
values. -/
theorem set_geometry_merges_witness :
    (setGeometryImpl baseState 1 ⟨some 10, none, none, some 60⟩).pinnacle.findWindow
        1 =
      some { win1 with
        floatingOrTiled := FloatingOrTiled.tiled
          (some (Rect.fromLocAndSize ⟨10, 0⟩ ⟨100, 60⟩)) } :=
  (set_geometry_merges baseState 1 win1 ⟨0, 0⟩ ⟨some 10, none, none, some 60⟩
    (by decide) (by decide)).2 none (by decide)

/-- C7: a window-service operation on a window id that resolves to no
window returns ok and leaves the state untouched — a silent no-op, never
an error. -/
theorem missing_window_silent_noop (st : State) (wid : Nat)
    (g? : Option GeometryMsg)
    (h : st.pinnacle.findWindow wid = none) :
    closeRpc (some wid) st = .ok st ∧
      raiseRpc (some wid) st = .ok st ∧
      setGeometryRpc (some wid) g? st = .ok st := by
  refine ⟨?_, ?_, ?_⟩ <;>
    simp [closeRpc, closeImpl, raiseRpc, raiseImpl, setGeometryRpc,
      setGeometryImpl, h]

/-- Witness for C7: no window of the fixture has id 99, and `close`,
`raise` and `set_geometry` on id 99 all return ok with the state
unchanged. -/
theorem missing_window_silent_noop_witness :
    closeRpc (some 99) baseState = .ok baseState ∧
      raiseRpc (some 99) baseState = .ok baseState ∧
      setGeometryRpc (some 99) none baseState = .ok baseState :=
  missing_window_silent_noop baseState 99 none (by decide)

/-- C8: a window-service command with a missing required field or an
unspecified (out-of-range) `SetOrToggle` is rejected synchronously with
a descriptive invalid-argument error; the rejection happens before the
state closure is submitted, so no compositor state is mutated. -/
theorem invalid_request_rejected (st : State) (wid tid : Nat)
    (mode : SetOrToggle) (tid? : Option Nat) :
    setFullscreenRpc none mode st = .error "no window specified" ∧
      setFullscreenRpc (some wid) .unspecified st =
        .error "unspecified set or toggle" ∧
      setTagRpc none tid? mode st = .error "no window specified" ∧
      setTagRpc (some wid) none mode st = .error "no tag specified" ∧
      setTagRpc (some wid) (some tid) .unspecified st =
        .error "unspecified set or toggle" :=
  ⟨rfl, rfl, rfl, rfl, rfl⟩

/-- `Tag.output` ignores window updates. -/
theorem tagOutput_updateWindow (pin : PinnacleState) (i : Nat)
    (f : Window → Window) (t : Tag) :
    Tag.output (pin.updateWindow i f) t = Tag.output pin t := by
  simp [Tag.output, PinnacleState.findOutput, PinnacleState.updateWindow]

/-- C10: for an existing window and tag, `move_to_tag` replaces the
window's entire tag list with exactly the single given tag, then
requests layout and render on the tag's output (when it resolves). -/
theorem move_to_tag_replaces (st : State) (wid tid : Nat) (w : Window)
    (t : Tag)
    (hw : st.pinnacle.findWindow wid = some w)
    (ht : st.pinnacle.findTag tid = some t) :
    (moveToTagImpl st wid tid).pinnacle.findWindow wid =
        some { w with tags := [t.id] } ∧
      (∀ op, Tag.output st.pinnacle t = some op →
        (moveToTagImpl st wid tid).layoutRequests = op :: st.layoutRequests ∧
          (moveToTagImpl st wid tid).renderSchedules =
            op :: st.renderSchedules) := by
  have hwid := findWindow_id hw
  constructor
  · simp only [moveToTagImpl, hw, ht]
    rcases hto : Tag.output
        (st.pinnacle.updateWindow wid fun v => { v with tags := [t.id] }) t
      with _ | op <;>
      · simp only [hto]
        show (st.pinnacle.updateWindow wid _).findWindow wid = _
        rw [findWindow_updateWindow _ _ _ (by intro v; rfl), hw, Option.map_some',
          if_pos hwid]
  · intro op hop
    have hop' : Tag.output
        (st.pinnacle.updateWindow wid fun v => { v with tags := [t.id] }) t =
          some op := by
      rw [tagOutput_updateWindow]
      exact hop
    simp only [moveToTagImpl, hw, ht, hop', State.requestLayout,
      State.scheduleRender]
    exact ⟨trivial, trivial⟩

/-- Witness for C10: moving window 1 of the fixture to tag 5 leaves its
tag list at exactly [5] and requests layout and render on output 10. -/
theorem move_to_tag_replaces_witness :
    (moveToTagImpl baseState 1 5).pinnacle.findWindow 1 =
        some { win1 with tags := [5] } ∧
      (moveToTagImpl baseState 1 5).layoutRequests = [10] ∧
      (moveToTagImpl baseState 1 5).renderSchedules = [10] := by
  have h := move_to_tag_replaces baseState 1 5 win1 tag5 (by decide) (by decide)
  exact ⟨h.1, (h.2 10 (by decide)).1, (h.2 10 (by decide)).2⟩
end Pinnacle
